import Mathlib

/-!
Verification development for the text-to-video platform's generation
orchestration layer. The definitions below are shallow embeddings of the
TypeScript sources:

* `src/src/services/proceduralVideoGeneration.ts` — the procedural
  synthesis engine (`analyzePrompt`, `generateFrame`, the five drawing
  functions, `framesToVideo`, `generateVideo`).
* `src/src/pages/AdminPage.tsx` (the `ComfyUIService` part) — the remote
  pipeline client (`isServerAvailable`, `queuePrompt`,
  `waitForCompletion`, `createTextToVideoWorkflow`, `generateVideo`).

JavaScript numbers are modelled as rationals (`ℚ`); the browser's
`Math.sin` / `Math.cos` / `Math.PI` are abstracted as a `MathModel`
parameter, so every definition stays computable while the drawing
geometry remains a pure function of its inputs, exactly as in the source.
-/

/-- Boolean test that the second list starts with the first
(character-wise, mirroring JavaScript string comparison). -/
def leadsWith : List Char → List Char → Bool
  | [], _ => true
  | _ :: _, [] => false
  | c :: cs, d :: ds => c == d && leadsWith cs ds

/-- Boolean substring occurrence test: `subIn needle hay` is true iff
`needle` occurs contiguously inside `hay`.  Embeds JavaScript
`String.prototype.includes`. -/
def subIn : List Char → List Char → Bool
  | needle, [] => leadsWith needle []
  | needle, hay@(_ :: rest) => leadsWith needle hay || subIn needle rest

/-- String-level substring test, `strHasSub s pat` ↔ JS `s.includes(pat)`. -/
def strHasSub (s pat : String) : Bool :=
  subIn pat.data s.data

/-- Character-wise lowercasing, embedding JS `toLowerCase()` (kernel-reducible
counterpart of `String.toLower`, which maps `Char.toLower` over the string). -/
def strToLower (s : String) : String :=
  ⟨s.data.map Char.toLower⟩

/-- Visual style descriptor returned by `analyzePrompt`
(file `proceduralVideoGeneration.ts`, lines 108–113). -/
structure VisualStyle where
  colors : List String
  animationType : String
  speed : ℚ
  prompt : String
deriving DecidableEq, Repr

/-- Embeds `ProceduralVideoGenerationService.analyzePrompt`
(`proceduralVideoGeneration.ts`, lines 67–114).  The source assigns a
default and then walks an if/else-if chain for each of the three
parameters; the chains below are the same chains with the default as the
final else. JS `0.5` is the rational `1/2`. -/
def analyzePrompt (prompt : String) : VisualStyle :=
  let lowerPrompt := strToLower prompt
  let colors :=
    if strHasSub lowerPrompt "sunset" || strHasSub lowerPrompt "orange" || strHasSub lowerPrompt "warm" then
      ["#f59e0b", "#ef4444", "#dc2626"]
    else if strHasSub lowerPrompt "ocean" || strHasSub lowerPrompt "blue" || strHasSub lowerPrompt "water" then
      ["#0ea5e9", "#3b82f6", "#1d4ed8"]
    else if strHasSub lowerPrompt "nature" || strHasSub lowerPrompt "green" || strHasSub lowerPrompt "forest" then
      ["#10b981", "#059669", "#065f46"]
    else if strHasSub lowerPrompt "fire" || strHasSub lowerPrompt "red" then
      ["#ef4444", "#dc2626", "#991b1b"]
    else if strHasSub lowerPrompt "night" || strHasSub lowerPrompt "dark" || strHasSub lowerPrompt "space" then
      ["#1e1b4b", "#312e81", "#3730a3"]
    else
      ["#4338ca", "#7c3aed", "#db2777"]
  let animationType :=
    if strHasSub lowerPrompt "spiral" || strHasSub lowerPrompt "swirl" || strHasSub lowerPrompt "tornado" then
      "spiral"
    else if strHasSub lowerPrompt "particles" || strHasSub lowerPrompt "stars" || strHasSub lowerPrompt "sparkle" then
      "particles"
    else if strHasSub lowerPrompt "geometric" || strHasSub lowerPrompt "abstract" then
      "geometric"
    else if strHasSub lowerPrompt "flowing" || strHasSub lowerPrompt "fluid" || strHasSub lowerPrompt "wave" then
      "wave"
    else if strHasSub lowerPrompt "pulsing" || strHasSub lowerPrompt "breathing" || strHasSub lowerPrompt "heartbeat" then
      "pulse"
    else
      "wave"
  let speed : ℚ :=
    if strHasSub lowerPrompt "fast" || strHasSub lowerPrompt "quick" || strHasSub lowerPrompt "rapid" then 2
    else if strHasSub lowerPrompt "slow" || strHasSub lowerPrompt "gentle" || strHasSub lowerPrompt "calm" then 1/2
    else 1
  ⟨colors, animationType, speed, prompt⟩

/-- Specification-side projection: the palette branch of `analyzePrompt`
in isolation (same chain, same literals). -/
def paletteOf (prompt : String) : List String :=
  let lowerPrompt := strToLower prompt
  if strHasSub lowerPrompt "sunset" || strHasSub lowerPrompt "orange" || strHasSub lowerPrompt "warm" then
    ["#f59e0b", "#ef4444", "#dc2626"]
  else if strHasSub lowerPrompt "ocean" || strHasSub lowerPrompt "blue" || strHasSub lowerPrompt "water" then
    ["#0ea5e9", "#3b82f6", "#1d4ed8"]
  else if strHasSub lowerPrompt "nature" || strHasSub lowerPrompt "green" || strHasSub lowerPrompt "forest" then
    ["#10b981", "#059669", "#065f46"]
  else if strHasSub lowerPrompt "fire" || strHasSub lowerPrompt "red" then
    ["#ef4444", "#dc2626", "#991b1b"]
  else if strHasSub lowerPrompt "night" || strHasSub lowerPrompt "dark" || strHasSub lowerPrompt "space" then
    ["#1e1b4b", "#312e81", "#3730a3"]
  else
    ["#4338ca", "#7c3aed", "#db2777"]

/-- Specification-side projection: the animation-kind branch of
`analyzePrompt` in isolation. -/
def kindOf (prompt : String) : String :=
  let lowerPrompt := strToLower prompt
  if strHasSub lowerPrompt "spiral" || strHasSub lowerPrompt "swirl" || strHasSub lowerPrompt "tornado" then
    "spiral"
  else if strHasSub lowerPrompt "particles" || strHasSub lowerPrompt "stars" || strHasSub lowerPrompt "sparkle" then
    "particles"
  else if strHasSub lowerPrompt "geometric" || strHasSub lowerPrompt "abstract" then
    "geometric"
  else if strHasSub lowerPrompt "flowing" || strHasSub lowerPrompt "fluid" || strHasSub lowerPrompt "wave" then
    "wave"
  else if strHasSub lowerPrompt "pulsing" || strHasSub lowerPrompt "breathing" || strHasSub lowerPrompt "heartbeat" then
    "pulse"
  else
    "wave"

/-- Specification-side projection: the speed branch of `analyzePrompt`
in isolation. -/
def speedOf (prompt : String) : ℚ :=
  let lowerPrompt := strToLower prompt
  if strHasSub lowerPrompt "fast" || strHasSub lowerPrompt "quick" || strHasSub lowerPrompt "rapid" then 2
  else if strHasSub lowerPrompt "slow" || strHasSub lowerPrompt "gentle" || strHasSub lowerPrompt "calm" then 1/2
  else 1

/-- Warm/sunset keyword family hit (the condition of the first palette
branch of `analyzePrompt`). -/
def warmKeywordHit (p : String) : Bool :=
  strHasSub (strToLower p) "sunset" || strHasSub (strToLower p) "orange" || strHasSub (strToLower p) "warm"

/-- Water/ocean keyword family hit (the condition of the second palette
branch of `analyzePrompt`). -/
def waterKeywordHit (p : String) : Bool :=
  strHasSub (strToLower p) "ocean" || strHasSub (strToLower p) "blue" || strHasSub (strToLower p) "water"

/-- Fast keyword family hit (speed branch of `analyzePrompt`). -/
def fastKeywordHit (p : String) : Bool :=
  strHasSub (strToLower p) "fast" || strHasSub (strToLower p) "quick" || strHasSub (strToLower p) "rapid"

/-- Slow keyword family hit (speed branch of `analyzePrompt`). -/
def slowKeywordHit (p : String) : Bool :=
  strHasSub (strToLower p) "slow" || strHasSub (strToLower p) "gentle" || strHasSub (strToLower p) "calm"

/-- The end-to-end scenario-A prompt from the specification. -/
def oceanSunsetPrompt : String :=
  "Ocean waves crashing on beach, sunset lighting"

/-- The five procedural rendering branches of `generateFrame`
(`proceduralVideoGeneration.ts`, lines 141–159), as a closed sum type. -/
inductive RenderBranch where
  | spiral
  | particles
  | geometric
  | wave
  | pulse
deriving DecidableEq, Repr

/-- Classification of the `switch (animationType)` in `generateFrame`:
the five named cases, with the `default` case falling through to the
wave renderer. -/
def branchOf (animationType : String) : RenderBranch :=
  if animationType = "spiral" then .spiral
  else if animationType = "particles" then .particles
  else if animationType = "geometric" then .geometric
  else if animationType = "wave" then .wave
  else if animationType = "pulse" then .pulse
  else .wave

/-- Abstract model of the browser's float math used by the drawing code:
`Math.sin`, `Math.cos` and the constant `Math.PI`.  The drawing
functions are parametric in this model, which makes their purity (no
hidden mutable state) explicit: the raster commands depend on nothing
but the arguments. -/
structure MathModel where
  sin : ℚ → ℚ
  cos : ℚ → ℚ
  pi : ℚ

/-- Canvas drawing commands issued by the five renderers.  `arcDot` is a
beginPath/arc/fill circle, `strokePath` a polyline stroke, and
`rotFillRect` the save/translate/rotate/fillRect/restore group used by
the geometric renderer. -/
inductive DrawCmd where
  | fillRect (x y w h : ℚ) (style : String)
  | arcDot (x y r : ℚ) (style : String)
  | strokePath (pts : List (ℚ × ℚ)) (style : String) (lineWidth : ℚ)
  | rotFillRect (cx cy angle x y w h : ℚ) (style : String)
deriving DecidableEq, Repr

/-- Two-digit lowercase hex rendering of a (nonnegative) integer, the
model of JS `n.toString(16).padStart(2, '0')`. -/
def hex2 (n : ℤ) : String :=
  let s : String := ⟨Nat.toDigits 16 n.toNat⟩
  if s.length < 2 then "0" ++ s else s

/-- Embeds `drawSpiral` (`proceduralVideoGeneration.ts`, lines 164–179):
100 dots spiraling out from the center, alpha fading with index. -/
def drawSpiral (m : MathModel) (width height : ℕ) (time : ℚ) (colors : List String) :
    List DrawCmd :=
  let centerX : ℚ := (width : ℚ) / 2
  let centerY : ℚ := (height : ℚ) / 2
  (List.range 100).map (fun (i : ℕ) =>
    let angle : ℚ := (i : ℚ) * (1/10) + time
    let radius : ℚ := (i : ℚ) * 2
    let x := centerX + m.cos angle * radius
    let y := centerY + m.sin angle * radius
    DrawCmd.arcDot x y 3
      (colors.getD (i % colors.length) "" ++ hex2 (Rat.floor ((1 - (i : ℚ) / 100) * 255))))

/-- Embeds `drawParticles` (lines 181–192): 50 independently phased
oscillating sprites. -/
def drawParticles (m : MathModel) (width height : ℕ) (time : ℚ) (colors : List String) :
    List DrawCmd :=
  (List.range 50).map (fun (i : ℕ) =>
    let x := (m.sin (time + (i : ℚ)) * (1/2) + 1/2) * (width : ℚ)
    let y := (m.cos (time * (7/10) + (i : ℚ) * (3/10)) * (1/2) + 1/2) * (height : ℚ)
    let size := m.sin (time * 2 + (i : ℚ)) * 3 + 5
    DrawCmd.arcDot x y size (colors.getD (i % colors.length) "" ++ "80"))

/-- Embeds `drawGeometric` (lines 194–209): 6 rotating filled squares
around the center with pulsing size. -/
def drawGeometric (m : MathModel) (width height : ℕ) (time : ℚ) (colors : List String) :
    List DrawCmd :=
  let centerX : ℚ := (width : ℚ) / 2
  let centerY : ℚ := (height : ℚ) / 2
  (List.range 6).map (fun (i : ℕ) =>
    let size := 50 + m.sin (time * 2) * 20
    DrawCmd.rotFillRect centerX centerY (time + (i : ℚ) * m.pi / 3)
      (-size / 2) (-size / 2) size size
      (colors.getD (i % colors.length) "" ++ "60"))

/-- Embeds `drawWave` (lines 211–233): one phase/amplitude-offset sine
polyline per palette color. -/
def drawWave (m : MathModel) (width height : ℕ) (time : ℚ) (colors : List String) :
    List DrawCmd :=
  let amplitude : ℚ := (height : ℚ) * (2/10)
  let frequency : ℚ := 2/100
  let centerY : ℚ := (height : ℚ) / 2
  (List.range colors.length).map (fun (colorIndex : ℕ) =>
    let offset : ℚ := (colorIndex : ℚ) * 50
    let pts := (List.range width).map (fun (x : ℕ) =>
      ((x : ℚ),
        centerY + m.sin ((x : ℚ) * frequency + time + offset * (1/10)) * amplitude
          * (1 - (colorIndex : ℚ) * (2/10))))
    DrawCmd.strokePath pts (colors.getD colorIndex "" ++ "80") 3)

/-- Embeds `drawPulse` (lines 235–249): concentric circles with an
oscillating radius per palette entry. -/
def drawPulse (m : MathModel) (width height : ℕ) (time : ℚ) (colors : List String) :
    List DrawCmd :=
  let centerX : ℚ := (width : ℚ) / 2
  let centerY : ℚ := (height : ℚ) / 2
  let maxRadius : ℚ := ((min width height : ℕ) : ℚ) / 2
  (List.range colors.length).map (fun (i : ℕ) =>
    let pulse := m.sin (time * 2 + (i : ℚ) * (1/2)) * (1/2) + 1/2
    let radius := maxRadius * pulse * (1 - (i : ℚ) * (2/10))
    DrawCmd.arcDot centerX centerY radius
      (colors.getD i "" ++ hex2 (Rat.floor (pulse * 100))))

/-- The local `time` computed by `generateFrame` (line 139):
`progress * Math.PI * 2 * speed`. -/
def frameTime (m : MathModel) (speed progress : ℚ) : ℚ :=
  progress * m.pi * 2 * speed

/-- Embeds `ProceduralVideoGenerationService.generateFrame` (lines
128–162): black clear, then dispatch on the animation type with the
default case drawing the wave renderer.  Output is the frame's full
command list (whose rasterization is the `getImageData` result). -/
def generateFrame (m : MathModel) (visualStyle : VisualStyle) (width height : ℕ)
    (progress : ℚ) : List DrawCmd :=
  let time := frameTime m visualStyle.speed progress
  DrawCmd.fillRect 0 0 (width : ℚ) (height : ℚ) "#000" ::
    (match branchOf visualStyle.animationType with
      | .spiral => drawSpiral m width height time visualStyle.colors
      | .particles => drawParticles m width height time visualStyle.colors
      | .geometric => drawGeometric m width height time visualStyle.colors
      | .wave => drawWave m width height time visualStyle.colors
      | .pulse => drawPulse m width height time visualStyle.colors)

/-- Frame `i` of `frameCount` as produced by `generateFrames` (lines
116–126), which passes `progress = i / frameCount` to `generateFrame`. -/
def frameAt (m : MathModel) (visualStyle : VisualStyle) (width height frameCount i : ℕ) :
    List DrawCmd :=
  generateFrame m visualStyle width height ((i : ℚ) / (frameCount : ℚ))

/-- Result of the frame encoder: either the precondition rejection or a
completed recording described by its feed schedule (time in ms, frame
index) and the time at which the recorder is stopped. -/
inductive EncodeResult where
  | rejected (msg : String)
  | completed (schedule : List (ℚ × ℕ)) (stopTime : ℚ)
deriving DecidableEq, Repr

/-- Embeds the `drawFrame` recursion of `framesToVideo`
(`proceduralVideoGeneration.ts`, lines 292–307): while frames remain,
the current frame is presented at the current tick and the next call is
scheduled one `frameInterval` later; once frames are exhausted the
recorder stop is scheduled one further interval later.  `remaining`
counts the frames not yet presented, `i` is the next frame index and `t`
the current tick time in milliseconds. -/
def drawLoop (frameInterval : ℚ) : ℕ → ℕ → ℚ → List (ℚ × ℕ) × ℚ
  | 0, _, t => ([], t + frameInterval)
  | remaining + 1, i, t =>
      let rest := drawLoop frameInterval remaining (i + 1) (t + frameInterval)
      ((t, i) :: rest.1, rest.2)

/-- Embeds `ProceduralVideoGenerationService.framesToVideo` (lines
251–313): an empty frame list is rejected with `'No frames to convert'`
before any recording starts; otherwise the frames are fed by `drawLoop`
starting at tick 0 with interval `1000 / fps`. -/
def framesToVideo {α : Type} (frames : List α) (fps : ℚ) : EncodeResult :=
  if frames.length = 0 then
    .rejected "No frames to convert"
  else
    let frameInterval := 1000 / fps
    let run := drawLoop frameInterval frames.length 0 0
    .completed run.1 run.2

/-- The duration reported by the procedural `generateVideo` (line 53):
`duration = frames / fps`. -/
def procDuration (frames : ℕ) (fps : ℚ) : ℚ :=
  (frames : ℚ) / fps

/-- Error thrown by the browser `fetch` in the probe: either a
`TypeError` (the kind produced by network/CORS failures) with its
message, or any other error. -/
inductive FetchErr where
  | typeError (msg : String)
  | otherError (msg : String)
deriving DecidableEq, Repr

/-- Outcome of the initial CORS-mode `fetch` of `/system_stats`:
resolved with `response.ok`, or rejected with an error. -/
inductive FetchOutcome where
  | resolved (ok : Bool)
  | threw (e : FetchErr)
deriving DecidableEq, Repr

/-- Outcome of the `no-cors` (response-opaque) re-attempt. -/
inductive OpaqueOutcome where
  | resolved
  | threw
deriving DecidableEq, Repr

/-- What `isServerAvailable` does as observed by its caller: returns a
boolean, or lets an error propagate. -/
inductive ProbeOutcome where
  | returns (b : Bool)
  | throws (msg : String)
deriving DecidableEq, Repr

/-- The CORS-failure test at `AdminPage.tsx` line 100:
`error instanceof TypeError && (message.includes('CORS') ||
message.includes('Failed to fetch'))`. -/
def corsIndicator : FetchErr → Bool
  | .typeError msg => strHasSub msg "CORS" || strHasSub msg "Failed to fetch"
  | .otherError _ => false

/-- Embeds `ComfyUIService.isServerAvailable` (`AdminPage.tsx`, lines
84–115), parameterized by the transport outcomes of the two requests.
Control flow of the source: a resolved initial fetch returns
`response.ok`; a rejected one enters the outer catch, and when
`corsIndicator` holds, re-attempts in `no-cors` mode inside an inner
try.  In the source the `throw new Error('CORS_ERROR')` sits inside
that same inner try, so the inner `catch (corsError)` catches it and the
function falls through to `return false` on every failure path. -/
def isServerAvailable (f1 : FetchOutcome) (f2 : OpaqueOutcome) : ProbeOutcome :=
  match f1 with
  | .resolved ok => .returns ok
  | .threw e =>
    if corsIndicator e then
      match f2 with
      | .resolved => .returns false
      | .threw => .returns false
    else
      .returns false

/-- Response body of `POST /prompt` (`AdminPage.tsx`, lines 30–34); the
per-node error map is modelled as an association list. -/
structure QueuePromptResponse where
  prompt_id : String
  number : ℕ
  node_errors : List (String × String)
deriving DecidableEq, Repr

/-- Abstract stand-in for `JSON.stringify(data.node_errors)` used in the
submission-rejection message; only its presence in the message matters
to the design, not its exact text. -/
def stringifyErrors (errs : List (String × String)) : String :=
  errs.foldl (fun acc e => acc ++ e.1 ++ ":" ++ e.2) ""

/-- Embeds `ComfyUIService.queuePrompt` (`AdminPage.tsx`, lines
245–270): a non-2xx response is an error; a parsed response with a
non-empty `node_errors` map is a submission rejection; otherwise the
opaque `prompt_id` is returned. -/
def queuePrompt (httpOk : Bool) (statusText : String) (resp : QueuePromptResponse) :
    Except String String :=
  if httpOk = false then
    .error ("Failed to queue prompt: " ++ statusText)
  else if resp.node_errors.length > 0 then
    .error ("Workflow errors: " ++ stringifyErrors resp.node_errors)
  else
    .ok resp.prompt_id

/-- A video entry of a history node's `videos` array (`AdminPage.tsx`,
lines 53–57). -/
structure VideoRef where
  filename : String
  subfolder : String
  type : String
deriving DecidableEq, Repr

/-- One node's outputs in a history response (`videos` and `images`
arrays; an absent array is the empty list). -/
structure NodeOutput where
  videos : List VideoRef
  images : List VideoRef
deriving DecidableEq, Repr

/-- Outcome of one `GET /history/promptId` poll: a non-2xx response, a
2xx response in which the job id is still absent, or a 2xx response
carrying the completed job's outputs map (association list in object
iteration order). -/
inductive HistoryResult where
  | httpError
  | pending
  | done (outputs : List (String × NodeOutput))
deriving Repr

/-- The `/view` result locator built at `AdminPage.tsx` line 299. -/
def viewUrl (base : String) (v : VideoRef) : String :=
  base ++ "/view?filename=" ++ v.filename ++ "&subfolder=" ++ v.subfolder
    ++ "&type=" ++ v.type

/-- The output scan of `waitForCompletion` (`AdminPage.tsx`, lines
294–303): walk the outputs map in iteration order and take `videos[0]`
of the first node whose `videos` array is non-empty. -/
def findVideo : List (String × NodeOutput) → Option VideoRef
  | [] => none
  | (_, nodeOutput) :: rest =>
    match nodeOutput.videos with
    | [] => findVideo rest
    | v :: _ => some v

/-- Specification-side description of the same scan: the head of the
`videos` list of the first node `List.find?` locates with a non-empty
`videos` list. -/
def firstVideoSpec (outputs : List (String × NodeOutput)) : Option VideoRef :=
  (outputs.find? (fun o => !o.2.videos.isEmpty)).bind (fun o => o.2.videos.head?)

/-- Handling of a completed history entry (`AdminPage.tsx`, lines
289–305): resolve with the `/view` locator of the first video found, or
reject with the no-artifact error. -/
def processDone (base : String) (outputs : List (String × NodeOutput)) :
    Except String String :=
  match findVideo outputs with
  | some v => .ok (viewUrl base v)
  | none => .error "No video output found in generation results"

/-- The fixed poll interval of `waitForCompletion` (ms), from
`setInterval(..., 2000)`. -/
def pollIntervalMs : ℕ := 2000

/-- The absolute wall-clock timeout of `waitForCompletion` (ms), from
`setTimeout(..., 300000)`. -/
def timeoutMs : ℕ := 300000

/-- Number of interval ticks that can fire before the timeout clears the
interval: ticks occur at `2000·k` and the 300000 ms timeout tears the
interval down, so at most `300000 / 2000 = 150` polls are ever issued. -/
def maxPolls : ℕ := timeoutMs / pollIntervalMs

/-- Embeds the decision structure of the `waitForCompletion` poll loop
(`AdminPage.tsx`, lines 272–318), driven by an oracle giving the k-th
poll's history response (k counted from 1): a non-2xx response rejects
with the retrieval error, a response carrying the job id settles via
`processDone`, an id-less response leaves the interval running; when the
fuel (the tick budget the 300000 ms timeout allows) is exhausted the
timeout callback rejects with the timeout error. -/
def pollLoop (base : String) (oracle : ℕ → HistoryResult) :
    ℕ → ℕ → Except String String
  | 0, _ => .error "Video generation timeout"
  | fuel + 1, k =>
    match oracle k with
    | .httpError => .error "Failed to check generation status"
    | .done outputs => processDone base outputs
    | .pending => pollLoop base oracle fuel (k + 1)

/-- `waitForCompletion` as a function of the history oracle. -/
def waitForCompletion (base : String) (oracle : ℕ → HistoryResult) :
    Except String String :=
  pollLoop base oracle maxPolls 1

/-- Network requests `waitForCompletion` can issue.  The source's only
request is the history GET; a server-side cancellation constructor is
included so that its absence from every trace is expressible. -/
inductive PollRequest where
  | historyGet (k : ℕ)
  | cancelPost (k : ℕ)
deriving DecidableEq, Repr

/-- The request trace of the poll loop: one history GET per tick, ending
at the first decisive response or when the timeout's tick budget runs
out. -/
def requestLog (oracle : ℕ → HistoryResult) : ℕ → ℕ → List PollRequest
  | 0, _ => []
  | fuel + 1, k =>
    PollRequest.historyGet k ::
      (match oracle k with
        | .pending => requestLog oracle fuel (k + 1)
        | _ => [])

/-- The tail of `ComfyUIService.generateVideo` (`AdminPage.tsx`, lines
350–358): `waitForCompletion` is awaited only after `queuePrompt` has
resolved, so a submission rejection produces an empty poll trace.  The
pair returned is (terminal outcome, number of history polls issued). -/
def generateVideoRemote (httpOk : Bool) (statusText : String)
    (resp : QueuePromptResponse) (base : String) (oracle : ℕ → HistoryResult) :
    Except String String × ℕ :=
  match queuePrompt httpOk statusText resp with
  | .error e => (.error e, 0)
  | .ok _ => (waitForCompletion base oracle, (requestLog oracle maxPolls 1).length)

/-- Issue time (ms) of the k-th history poll (k counted from 0 here):
`setInterval` fires its callback at fixed multiples of the delay,
independent of whether the previous (async) callback has finished. -/
def pollIssueTime (k : ℕ) : ℕ := pollIntervalMs * (k + 1)

/-- Resolve time (ms) of the k-th poll given each poll's fetch latency:
the callback's awaited fetch settles `latency k` ms after issue. -/
def pollResolveTime (latency : ℕ → ℕ) (k : ℕ) : ℕ :=
  pollIssueTime k + latency k

/-- No-overlap property of the history poll loop: every poll resolves no
later than the next poll is issued. -/
def overlapFree (latency : ℕ → ℕ) : Prop :=
  ∀ k, pollResolveTime latency k ≤ pollIssueTime (k + 1)

/-- Inputs of the two `CLIPTextEncode` nodes (`AdminPage.tsx`, lines
160–179); `clip` is a (node id, output slot) reference. -/
structure ClipTextEncodeInputs where
  text : String
  clip : String × ℕ
deriving DecidableEq, Repr

/-- Inputs of the `KSampler` node (lines 180–195). -/
structure KSamplerInputs where
  seed : ℤ
  steps : ℕ
  cfg : ℚ
  sampler_name : String
  scheduler : String
  positive : String × ℕ
  negative : String × ℕ
  latent_image : String × ℕ
deriving DecidableEq, Repr

/-- Inputs of the `CheckpointLoaderSimple` node (lines 196–204). -/
structure CheckpointLoaderInputs where
  ckpt_name : String
deriving DecidableEq, Repr

/-- Inputs of the `EmptyLatentImage` node (lines 205–215). -/
structure EmptyLatentImageInputs where
  width : ℕ
  height : ℕ
  batch_size : ℕ
deriving DecidableEq, Repr

/-- Inputs of the `VAEDecode` node (lines 216–225). -/
structure VAEDecodeInputs where
  samples : String × ℕ
  vae : String × ℕ
deriving DecidableEq, Repr

/-- Inputs of the `VHS_VideoCombine` node (lines 226–241). -/
structure VideoCombineInputs where
  images : String × ℕ
  frame_rate : ℕ
  loop_count : ℕ
  filename_prefix : String
  format : String
  pix_fmt : String
  crf : ℕ
  save_metadata : Bool
deriving DecidableEq, Repr

/-- A workflow node: its inputs record, its `class_type`, and its
`_meta.title`. -/
structure WfNode (I : Type) where
  inputs : I
  class_type : String
  title : String
deriving DecidableEq, Repr

/-- The workflow graph built by `createTextToVideoWorkflow`: the fixed
seven-node topology keyed "1"–"7" in the source. -/
structure ComfyUIWorkflow where
  node1 : WfNode ClipTextEncodeInputs
  node2 : WfNode ClipTextEncodeInputs
  node3 : WfNode KSamplerInputs
  node4 : WfNode CheckpointLoaderInputs
  node5 : WfNode EmptyLatentImageInputs
  node6 : WfNode VAEDecodeInputs
  node7 : WfNode VideoCombineInputs
deriving DecidableEq, Repr

/-- Embeds `ComfyUIService.createTextToVideoWorkflow` (`AdminPage.tsx`,
lines 158–243) with the random seed draw externalized as the `seed`
argument (the source computes it as
`Math.floor(Math.random() * 1000000)`; see `drawSeed`).  Every other
field is a literal or one of the `prompt`/`width`/`height` inputs. -/
def createTextToVideoWorkflow (prompt : String) (width height : ℕ) (seed : ℤ) :
    ComfyUIWorkflow where
  node1 := ⟨⟨prompt, ("4", 1)⟩, "CLIPTextEncode", "CLIP Text Encode (Prompt)"⟩
  node2 := ⟨⟨"blurry, low quality, distorted", ("4", 1)⟩, "CLIPTextEncode",
    "CLIP Text Encode (Negative)"⟩
  node3 := ⟨⟨seed, 20, 7, "euler", "normal", ("1", 0), ("2", 0), ("5", 0)⟩,
    "KSampler", "KSampler"⟩
  node4 := ⟨⟨"sd_xl_base_1.0.safetensors"⟩, "CheckpointLoaderSimple",
    "Load Checkpoint"⟩
  node5 := ⟨⟨width, height, 1⟩, "EmptyLatentImage", "Empty Latent Image"⟩
  node6 := ⟨⟨("3", 0), ("4", 2)⟩, "VAEDecode", "VAE Decode"⟩
  node7 := ⟨⟨("6", 0), 10, 0, "ComfyUI_video", "video/webm", "yuv420p", 20, true⟩,
    "VHS_VideoCombine", "Video Combine"⟩

/-- The seed draw of the sampler node:
`Math.floor(Math.random() * 1000000)` with `Math.random()` modelled as a
rational `r ∈ [0, 1)`. -/
def drawSeed (r : ℚ) : ℤ :=
  Rat.floor (r * 1000000)

/-- Zero out the one field the builder randomizes, for stating
structural identity up to the seed. -/
def eraseSeed (g : ComfyUIWorkflow) : ComfyUIWorkflow :=
  { g with node3 := { g.node3 with inputs := { g.node3.inputs with seed := 0 } } }

lemma wfErrNeTimeoutMsg (s : String) :
    ("Workflow errors: " ++ s) ≠ "Video generation timeout" := by
  intro h
  have h1 : ("Workflow errors: " ++ s).data = "Video generation timeout".data := by rw [h]
  rw [String.data_append] at h1
  have h2 : "Workflow errors: ".data = 'W' :: "orkflow errors: ".data := rfl
  have h3 : "Video generation timeout".data = 'V' :: "ideo generation timeout".data := rfl
  rw [h2, h3] at h1
  simp at h1

lemma wfErrNeNoOutputMsg (s : String) :
    ("Workflow errors: " ++ s) ≠ "No video output found in generation results" := by
  intro h
  have h1 : ("Workflow errors: " ++ s).data
      = "No video output found in generation results".data := by rw [h]
  rw [String.data_append] at h1
  have h2 : "Workflow errors: ".data = 'W' :: "orkflow errors: ".data := rfl
  have h3 : "No video output found in generation results".data
      = 'N' :: "o video output found in generation results".data := rfl
  rw [h2, h3] at h1
  simp at h1

lemma pollLoop_pending_all (base : String) (oracle : ℕ → HistoryResult)
    (h : ∀ k, oracle k = .pending) :
    ∀ fuel k, pollLoop base oracle fuel k = .error "Video generation timeout" := by
  intro fuel
  induction fuel with
  | zero => intro k; rfl
  | succ n ih => intro k; simp only [pollLoop, h k]; exact ih (k + 1)

lemma requestLog_pending_all (oracle : ℕ → HistoryResult)
    (h : ∀ k, oracle k = .pending) :
    ∀ fuel k, requestLog oracle fuel k
      = (List.range fuel).map (fun j => PollRequest.historyGet (k + j)) := by
  intro fuel
  induction fuel with
  | zero => intro k; rfl
  | succ n ih =>
    intro k
    have heq : (fun j => PollRequest.historyGet (k + 1 + j))
        = (fun j => PollRequest.historyGet (k + (j + 1))) := by
      funext j; congr 1; omega
    simp only [requestLog, h k, ih (k + 1), List.range_succ_eq_map, List.map_cons,
      List.map_map, Function.comp_def, Nat.add_zero, heq]

lemma requestLog_no_cancel (oracle : ℕ → HistoryResult) :
    ∀ fuel k j, PollRequest.cancelPost j ∉ requestLog oracle fuel k := by
  intro fuel
  induction fuel with
  | zero => intro k j hmem; simp [requestLog] at hmem
  | succ n ih =>
    intro k j hmem
    cases horacle : oracle k <;> simp [requestLog, horacle] at hmem
    exact ih (k + 1) j hmem

/-- C1: the specification says a probe whose initial status request
throws a network-type error while the `no-cors` re-attempt completes
must surface the distinct `CorsBlocked` condition — an error with
message `CORS_ERROR` reaching the caller (the `ComfyUIStatus` caller
even matches on `error.message === 'CORS_ERROR'`).  In the source the
`throw new Error('CORS_ERROR')` sits inside the inner try whose own
`catch (corsError)` swallows it, so `isServerAvailable` returns `false`
on that path — the same outcome as plain unavailability — and in fact
never lets any error escape. -/
theorem c1_cors_error_swallowed :
    isServerAvailable (FetchOutcome.threw (FetchErr.typeError "Failed to fetch"))
        OpaqueOutcome.resolved = ProbeOutcome.returns false
    ∧ isServerAvailable (FetchOutcome.threw (FetchErr.typeError "Failed to fetch"))
        OpaqueOutcome.threw = ProbeOutcome.returns false
    ∧ (∀ f1 f2, ∃ b, isServerAvailable f1 f2 = ProbeOutcome.returns b) := by
  refine ⟨rfl, rfl, ?_⟩
  intro f1 f2
  cases f1 with
  | resolved ok => exact ⟨ok, rfl⟩
  | threw e =>
    refine ⟨false, ?_⟩
    simp only [isServerAvailable]
    split
    · cases f2 <;> rfl
    · rfl

/-- C2 counterexample: with `setInterval` semantics (ticks at fixed
multiples of the 2000 ms delay, independent of the async callback), a
history fetch that takes 3000 ms means poll 0 resolves at 5000 ms while
poll 1 has already been issued at 4000 ms — a new poll is issued before
the previous one resolves. -/
theorem c2_overlap_counterexample :
    pollIssueTime 1 = 4000
    ∧ pollResolveTime (fun _ => 3000) 0 = 5000
    ∧ pollIssueTime 1 < pollResolveTime (fun _ => 3000) 0 := by decide

/-- C2 (amended): the poll loop issues a new history request every
fixed 2000 ms interval regardless of the previous request's completion;
polls never overlap exactly when every poll's latency stays within the
interval. -/
theorem c2_no_overlap_when_latency_within_interval (latency : ℕ → ℕ)
    (h : ∀ k, latency k ≤ pollIntervalMs) : overlapFree latency := by
  intro k
  have hk := h k
  simp only [pollResolveTime, pollIssueTime, pollIntervalMs] at *
  omega

theorem c2_no_overlap_witness : overlapFree (fun _ => 1000) :=
  c2_no_overlap_when_latency_within_interval (fun _ => 1000)
    (fun _ => by simp [pollIntervalMs])

/-- C3: when no history poll ever resolves the job within the 300000 ms
timeout budget, the wait rejects with the `'Video generation timeout'`
error, every request issued is a history GET whose issue time is at most
the expiry time (the interval is torn down at expiry, so no request is
issued after it), and no server-side cancellation request is ever
sent. -/
theorem c3_timeout_teardown (base : String) (oracle : ℕ → HistoryResult)
    (h : ∀ k, oracle k = HistoryResult.pending) :
    waitForCompletion base oracle = .error "Video generation timeout"
    ∧ (∀ r ∈ requestLog oracle maxPolls 1,
        ∃ j, r = PollRequest.historyGet (1 + j) ∧ j < maxPolls
          ∧ pollIssueTime j ≤ timeoutMs)
    ∧ (∀ j, PollRequest.cancelPost j ∉ requestLog oracle maxPolls 1) := by
  refine ⟨pollLoop_pending_all base oracle h maxPolls 1, ?_, ?_⟩
  · intro r hr
    rw [requestLog_pending_all oracle h maxPolls 1] at hr
    simp only [List.mem_map, List.mem_range] at hr
    obtain ⟨j, hj, rfl⟩ := hr
    refine ⟨j, rfl, hj, ?_⟩
    have hj' : j < 150 := hj
    simp only [pollIssueTime, pollIntervalMs, timeoutMs]
    omega
  · intro j
    exact requestLog_no_cancel oracle maxPolls 1 j

theorem c3_timeout_teardown_witness :
    waitForCompletion "http://localhost:8188" (fun _ => HistoryResult.pending)
      = .error "Video generation timeout" :=
  (c3_timeout_teardown "http://localhost:8188" (fun _ => HistoryResult.pending)
    (fun _ => rfl)).1

/-- C4: with a 2xx submission response whose parsed `node_errors` map is
non-empty, the orchestrator's remote path terminates with the
`'Workflow errors: …'` submission rejection and issues zero history
polls (polling only starts after `queuePrompt` resolves); the rejection
message is distinct from both execution-failure messages; and with an
absent/empty `node_errors` map `queuePrompt` returns the opaque
`prompt_id`. -/
theorem c4_submission_rejection (statusText base : String)
    (oracle : ℕ → HistoryResult) (resp : QueuePromptResponse) :
    (resp.node_errors ≠ [] →
      generateVideoRemote true statusText resp base oracle
        = (.error ("Workflow errors: " ++ stringifyErrors resp.node_errors), 0))
    ∧ (resp.node_errors = [] → queuePrompt true statusText resp = .ok resp.prompt_id)
    ∧ (∀ s, ("Workflow errors: " ++ s) ≠ "No video output found in generation results")
    ∧ (∀ s, ("Workflow errors: " ++ s) ≠ "Video generation timeout") := by
  refine ⟨?_, ?_, wfErrNeNoOutputMsg, wfErrNeTimeoutMsg⟩
  · intro h
    have hlen : resp.node_errors.length > 0 := List.length_pos.mpr h
    simp [generateVideoRemote, queuePrompt, hlen]
  · intro h
    simp [queuePrompt, h]

theorem c4_submission_rejection_witness :
    generateVideoRemote true "OK" ⟨"abc", 1, [("3", "bad node")]⟩
        "http://localhost:8188" (fun _ => HistoryResult.pending)
      = (.error ("Workflow errors: " ++ stringifyErrors [("3", "bad node")]), 0) :=
  (c4_submission_rejection "OK" "http://localhost:8188" (fun _ => HistoryResult.pending)
    ⟨"abc", 1, [("3", "bad node")]⟩).1 (by decide)

lemma findVideo_eq_spec : ∀ outputs, findVideo outputs = firstVideoSpec outputs := by
  intro outputs
  induction outputs with
  | nil => rfl
  | cons head tail ih =>
    obtain ⟨nid, node⟩ := head
    cases hv : node.videos with
    | nil => simp [findVideo, firstVideoSpec, hv, ih]
    | cons v vs => simp [findVideo, firstVideoSpec, hv]

lemma findVideo_none_of_all_empty :
    ∀ outputs, (∀ o ∈ outputs, (o.2 : NodeOutput).videos = []) →
      findVideo outputs = none := by
  intro outputs
  induction outputs with
  | nil => intro _; rfl
  | cons head tail ih =>
    intro h
    obtain ⟨nid, node⟩ := head
    have hh : node.videos = [] := h (nid, node) (by simp)
    simp only [findVideo, hh]
    exact ih (fun o ho => h o (by simp [ho]))

lemma pollLoop_succ (base : String) (oracle : ℕ → HistoryResult) (fuel k : ℕ) :
    pollLoop base oracle (fuel + 1) k
      = (match oracle k with
          | .httpError => .error "Failed to check generation status"
          | .done outputs => processDone base outputs
          | .pending => pollLoop base oracle fuel (k + 1)) := rfl

/-- C5: a completed history entry none of whose nodes exposes a
non-empty `videos` list makes the wait reject with the
`'No video output found in generation results'` error, which is a
different message from the timeout error; when some node does expose a
video, the result locator is the `/view` URL built from the
filename/subfolder/type of the first such node in iteration order; and a
first poll returning the completed entry settles the wait exactly as
that entry dictates. -/
theorem c5_no_artifact (base : String) (outputs : List (String × NodeOutput))
    (oracle : ℕ → HistoryResult) :
    ((∀ o ∈ outputs, (o.2 : NodeOutput).videos = []) →
      processDone base outputs = .error "No video output found in generation results")
    ∧ ("No video output found in generation results" ≠ "Video generation timeout")
    ∧ (∀ v, findVideo outputs = some v →
        processDone base outputs = .ok (viewUrl base v))
    ∧ findVideo outputs = firstVideoSpec outputs
    ∧ (oracle 1 = HistoryResult.done outputs →
        waitForCompletion base oracle = processDone base outputs) := by
  refine ⟨?_, by decide, ?_, findVideo_eq_spec outputs, ?_⟩
  · intro h
    simp [processDone, findVideo_none_of_all_empty outputs h]
  · intro v hv
    simp [processDone, hv]
  · intro h
    show pollLoop base oracle maxPolls 1 = _
    rw [show maxPolls = 149 + 1 from rfl, pollLoop_succ, h]

theorem c5_no_artifact_witness :
    processDone "http://localhost:8188" [("9", NodeOutput.mk [] [])]
      = .error "No video output found in generation results" :=
  (c5_no_artifact "http://localhost:8188" [("9", NodeOutput.mk [] [])]
    (fun _ => HistoryResult.pending)).1 (by decide)

/-- C6: style inference is substring-based and first-match-wins,
evaluated independently per parameter.  `analyzePrompt` factors into the
three independent projections; any prompt hitting the warm/sunset
keyword family gets the warm palette regardless of what other families
(such as water/ocean) also match, because the warm branch is tested
first; the speed multiplier is 2 on a fast-keyword hit, 1/2 on a
slow-keyword hit (fast not hit), and 1 otherwise, independent of palette
and kind; and the scenario-A prompt, which contains both "sunset" and
"ocean", selects the warm palette. -/
theorem c6_style_first_match (p : String) :
    analyzePrompt p = ⟨paletteOf p, kindOf p, speedOf p, p⟩
    ∧ (warmKeywordHit p = true →
        (analyzePrompt p).colors = ["#f59e0b", "#ef4444", "#dc2626"])
    ∧ (fastKeywordHit p = true → (analyzePrompt p).speed = 2)
    ∧ (fastKeywordHit p = false → slowKeywordHit p = true →
        (analyzePrompt p).speed = 1/2)
    ∧ (fastKeywordHit p = false → slowKeywordHit p = false →
        (analyzePrompt p).speed = 1)
    ∧ (warmKeywordHit oceanSunsetPrompt = true
        ∧ waterKeywordHit oceanSunsetPrompt = true
        ∧ (analyzePrompt oceanSunsetPrompt).colors
            = ["#f59e0b", "#ef4444", "#dc2626"]) := by
  refine ⟨rfl, ?_, ?_, ?_, ?_, by decide, by decide, by decide⟩
  · intro h
    have h' : (strHasSub (strToLower p) "sunset" || strHasSub (strToLower p) "orange"
        || strHasSub (strToLower p) "warm") = true := h
    show paletteOf p = _
    simp [paletteOf, h']
  · intro h
    have h' : (strHasSub (strToLower p) "fast" || strHasSub (strToLower p) "quick"
        || strHasSub (strToLower p) "rapid") = true := h
    show speedOf p = _
    simp [speedOf, h']
  · intro hf hs
    have hf' : (strHasSub (strToLower p) "fast" || strHasSub (strToLower p) "quick"
        || strHasSub (strToLower p) "rapid") = false := hf
    have hs' : (strHasSub (strToLower p) "slow" || strHasSub (strToLower p) "gentle"
        || strHasSub (strToLower p) "calm") = true := hs
    show speedOf p = _
    simp [speedOf, hf', hs']
  · intro hf hs
    have hf' : (strHasSub (strToLower p) "fast" || strHasSub (strToLower p) "quick"
        || strHasSub (strToLower p) "rapid") = false := hf
    have hs' : (strHasSub (strToLower p) "slow" || strHasSub (strToLower p) "gentle"
        || strHasSub (strToLower p) "calm") = false := hs
    show speedOf p = _
    simp [speedOf, hf', hs']

theorem c6_style_first_match_witness :
    (analyzePrompt oceanSunsetPrompt).colors = ["#f59e0b", "#ef4444", "#dc2626"] :=
  (c6_style_first_match oceanSunsetPrompt).2.1 (by decide)

/-- C7: rendering frame `i` of `N` is a pure function of the style
descriptor, dimensions and index — `frameAt` is exactly `generateFrame`
applied to `progress = i/N`, the frame's local time value equals
`(i/N) · 2π · speed` (with π the abstract `Math.PI` of the math model),
and re-rendering the same frame yields the identical command list, hence
the identical raster under any fixed rasterization. -/
theorem c7_frame_purity (m : MathModel) (visualStyle : VisualStyle)
    (width height frameCount i : ℕ) :
    frameAt m visualStyle width height frameCount i
      = generateFrame m visualStyle width height ((i : ℚ) / (frameCount : ℚ))
    ∧ frameTime m visualStyle.speed ((i : ℚ) / (frameCount : ℚ))
      = ((i : ℚ) / (frameCount : ℚ)) * (2 * m.pi) * visualStyle.speed
    ∧ frameAt m visualStyle width height frameCount i
      = frameAt m visualStyle width height frameCount i := by
  refine ⟨rfl, ?_, rfl⟩
  simp only [frameTime]
  ring

/-- C8 counterexample: the sampler seed is
`Math.floor(Math.random() * 1000000)`, whose possible values are exactly
the integers 0‥999999 — a range of one million values, not a
multi-million-value range (fewer than 2 000 000 values). -/
theorem c8_seed_range_counterexample :
    drawSeed 0 = 0 ∧ drawSeed (999999 / 1000000 : ℚ) = 999999
    ∧ (Finset.Icc (0 : ℤ) 999999).card = 1000000
    ∧ (1000000 : ℕ) < 2000000 := by
  refine ⟨?_, ?_, ?_, by norm_num⟩
  · show (⌊(0 : ℚ) * 1000000⌋ : ℤ) = 0
    norm_num
  · show (⌊(999999 / 1000000 : ℚ) * 1000000⌋ : ℤ) = 999999
    rw [show (999999 / 1000000 : ℚ) * 1000000 = ((999999 : ℤ) : ℚ) by norm_num]
    exact Int.floor_intCast 999999
  · rw [Int.card_Icc]
    rfl

/-- C8 (amended): two builder invocations with the same prompt and
dimensions produce structurally identical workflow graphs except for the
sampler node's seed field, which carries exactly the drawn seed — the
only source of non-determinism — drawn uniformly from the million-value
integer range 0‥999999. -/
theorem c8_structural_identity (prompt : String) (width height : ℕ)
    (s1 s2 : ℤ) (r : ℚ) (h0 : 0 ≤ r) (h1 : r < 1) :
    eraseSeed (createTextToVideoWorkflow prompt width height s1)
      = eraseSeed (createTextToVideoWorkflow prompt width height s2)
    ∧ (createTextToVideoWorkflow prompt width height s1).node3.inputs.seed = s1
    ∧ 0 ≤ drawSeed r ∧ drawSeed r < 1000000 := by
  refine ⟨rfl, rfl, ?_, ?_⟩
  · show (0 : ℤ) ≤ ⌊r * 1000000⌋
    exact Int.floor_nonneg.mpr (by positivity)
  · show (⌊r * 1000000⌋ : ℤ) < 1000000
    refine Int.floor_lt.mpr ?_
    push_cast
    nlinarith

theorem c8_structural_identity_witness :
    eraseSeed (createTextToVideoWorkflow "a galaxy" 512 512 7)
      = eraseSeed (createTextToVideoWorkflow "a galaxy" 512 512 9)
    ∧ (createTextToVideoWorkflow "a galaxy" 512 512 7).node3.inputs.seed = 7
    ∧ 0 ≤ drawSeed 0 ∧ drawSeed 0 < 1000000 :=
  c8_structural_identity "a galaxy" 512 512 7 9 0 (le_refl 0) zero_lt_one

lemma drawLoop_eq (frameInterval : ℚ) :
    ∀ remaining i t, drawLoop frameInterval remaining i t
      = ((List.range remaining).map
          (fun (j : ℕ) => (t + (j : ℚ) * frameInterval, i + j)),
         t + ((remaining : ℚ) + 1) * frameInterval) := by
  intro remaining
  induction remaining with
  | zero =>
    intro i t
    simp only [drawLoop, List.range_zero, List.map_nil, Nat.cast_zero]
    refine Prod.ext rfl ?_
    ring
  | succ n ih =>
    intro i t
    simp only [drawLoop, ih (i + 1) (t + frameInterval)]
    refine Prod.ext ?_ ?_
    · show (t, i) :: _ = _
      rw [List.range_succ_eq_map, List.map_cons, List.map_map]
      have hfun : ((fun (j : ℕ) => (t + (j : ℚ) * frameInterval, i + j)) ∘ Nat.succ)
          = fun j : ℕ =>
              ((t + frameInterval) + (j : ℚ) * frameInterval, (i + 1) + j) := by
        funext j
        refine Prod.ext ?_ ?_
        · show t + ((j : ℕ).succ : ℚ) * frameInterval = _
          push_cast
          ring
        · show i + (j + 1) = i + 1 + j
          omega
      rw [hfun]
      refine congrArg₂ List.cons ?_ rfl
      refine Prod.ext ?_ ?_
      · show t = t + ((0 : ℕ) : ℚ) * frameInterval
        push_cast
        ring
      · show i = i + 0
        omega
    · show t + frameInterval + ((n : ℚ) + 1) * frameInterval
          = t + (((n : ℕ).succ : ℚ) + 1) * frameInterval
      push_cast
      ring

/-- C9 counterexample: for a single frame at 10 fps the frame is
presented at tick 0 and the interval is 100 ms, yet the recorder stop is
scheduled at 200 ms — two intervals after the last frame, not one (the
loop needs one interval to observe exhaustion and then waits one
more). -/
theorem c9_finalize_counterexample :
    framesToVideo [(0 : ℕ)] (10 : ℚ) = .completed [(0, 0)] 200
    ∧ (0 : ℚ) + 1000 / 10 < 200 := by
  constructor
  · norm_num [framesToVideo, drawLoop]
  · norm_num

/-- C9 (amended): for every non-empty frame list of length N and frame
rate F the encoder presents frame j at time `j · (1000/F)` — strict
order, fixed interval — and stops the recorder at `(N+1) · (1000/F)`,
i.e. two intervals after the last frame (one to observe exhaustion, one
more before finalizing); the generation result reports a duration of
N/F seconds; and the empty frame list is rejected with
`'No frames to convert'` before anything is recorded. -/
theorem c9_encoder_schedule {α : Type} (frames : List α) (fps : ℚ)
    (h : frames ≠ []) :
    framesToVideo frames fps
      = .completed ((List.range frames.length).map
          (fun (j : ℕ) => ((j : ℚ) * (1000 / fps), j)))
        (((frames.length : ℚ) + 1) * (1000 / fps))
    ∧ procDuration frames.length fps = (frames.length : ℚ) / fps
    ∧ framesToVideo ([] : List α) fps = .rejected "No frames to convert" := by
  refine ⟨?_, rfl, rfl⟩
  have hlen : ¬ frames.length = 0 := by simpa using h
  simp only [framesToVideo, if_neg hlen]
  rw [drawLoop_eq]
  refine congrArg₂ EncodeResult.completed ?_ ?_
  · show List.map (fun (j : ℕ) => ((0 : ℚ) + (j : ℚ) * (1000 / fps), 0 + j))
        (List.range frames.length)
      = List.map (fun (j : ℕ) => ((j : ℚ) * (1000 / fps), j))
        (List.range frames.length)
    have hfun : (fun (j : ℕ) => ((0 : ℚ) + (j : ℚ) * (1000 / fps), 0 + j))
        = fun (j : ℕ) => ((j : ℚ) * (1000 / fps), j) := by
      funext j
      refine Prod.ext ?_ ?_
      · show (0 : ℚ) + (j : ℚ) * (1000 / fps) = (j : ℚ) * (1000 / fps)
        ring
      · show 0 + j = j
        omega
    rw [hfun]
  · show (0 : ℚ) + ((frames.length : ℚ) + 1) * (1000 / fps) = _
    ring

theorem c9_encoder_schedule_witness :
    framesToVideo [(0 : ℕ), 1] (10 : ℚ)
      = .completed ((List.range 2).map (fun (j : ℕ) => ((j : ℚ) * (1000 / 10), j)))
        (((2 : ℚ) + 1) * (1000 / 10)) :=
  (c9_encoder_schedule [(0 : ℕ), 1] (10 : ℚ) (by decide)).1

/-- C10: for every prompt, `analyzePrompt` returns a palette of exactly
3 colors, an animation kind among exactly the five strings
spiral/particles/geometric/wave/pulse, and a speed among exactly
{1/2, 1, 2}; dispatch therefore always lands in one of the five closed
rendering branches, and any string outside the five names takes the
default branch, which is the wave renderer. -/
theorem c10_style_invariants (p : String) :
    (analyzePrompt p).colors.length = 3
    ∧ (analyzePrompt p).animationType
        ∈ ["spiral", "particles", "geometric", "wave", "pulse"]
    ∧ (analyzePrompt p).speed ∈ ([1/2, 1, 2] : List ℚ)
    ∧ branchOf (analyzePrompt p).animationType
        ∈ [RenderBranch.spiral, RenderBranch.particles, RenderBranch.geometric,
            RenderBranch.wave, RenderBranch.pulse]
    ∧ (∀ t : String,
        t ∉ (["spiral", "particles", "geometric", "wave", "pulse"] : List String) →
        branchOf t = RenderBranch.wave) := by
  refine ⟨?_, ?_, ?_, ?_, ?_⟩
  · show (paletteOf p).length = 3
    simp only [paletteOf]
    split_ifs <;> rfl
  · show kindOf p ∈ _
    simp only [kindOf]
    split_ifs <;> simp
  · show speedOf p ∈ _
    simp only [speedOf]
    split_ifs <;> norm_num
  · show branchOf (kindOf p) ∈ _
    simp only [branchOf]
    split_ifs <;> simp
  · intro t ht
    simp only [branchOf]
    split_ifs <;> simp_all

theorem c10_style_invariants_witness : branchOf "zigzag" = RenderBranch.wave :=
  (c10_style_invariants "anything").2.2.2.2 "zigzag" (by decide)
